import Mathlib

/-!
Verification of `celery/worker/pidbox.py` (the `Pidbox` class): a shallow
embedding of the worker's control-channel inbox, its message-dispatch path
(`on_message`) and its lifecycle operations (`start`, `stop`, `reset`,
`shutdown`, `_close_channel`), together with theorems settling the spec's
claims about error containment, channel accounting and the logical clock.

The embedding makes all observable transport effects explicit as an event
trace, and threads the object state (`consumer`, `node.channel`, the shared
logical clock, and a counting transport's fresh-channel counter) through
every operation.  Python exceptions are modelled as an `Option Exc` in the
operation's outcome: the post-state at the raise point is kept, matching the
fact that a Python object survives an exception raised by one of its methods.
-/

namespace Pidbox

/-- Exceptions that can cross the boundaries the source interacts with:
`KeyError` (raised by `Node.handle_message` on an unknown command, or by a
handler body), any other `Exception` subclass raised by a handler, and
`TransportError` raised by `connection.channel()`.  Payloads are opaque
tokens (`Nat`). -/
inductive Exc where
  | keyError (k : Nat)
  | otherExc (e : Nat)
  | transportError
  deriving DecidableEq, Repr

/-- Observable events: clock advance, the two error-level log lines of
`on_message`, the `debug` line of `shutdown`, the on-stop hook, and the
counting transport's channel/consumer operations.  `chanClose` and
`consumerCancel` record the *attempt* (both are wrapped in `ignore_errors`
in the source, so a failing close/cancel still produces the event and never
an exception). -/
inductive Ev where
  | clockFwd
  | logNoSuchCommand (k : Nat)
  | logCommandError (e : Exc)
  | debugCancelling
  | onStopHook
  | chanOpen (ch : Nat)
  | listen (ch : Nat)
  | chanClose (ch : Nat)
  | consumerCancel (ch : Nat)
  deriving DecidableEq, Repr

/-- The dispatch callback registered on the consumer.  The source always
registers `self.on_message` (`self.consumer = self.node.listen(callback=self.on_message)`). -/
inductive Callback where
  | onMessage
  deriving DecidableEq, Repr

/-- The active subscription created by `node.listen`: bound to a channel,
holding the registered dispatch callback, and (after the following source
line runs) the forwarded decode-error callback. -/
structure Consumer where
  chan : Nat
  callback : Callback
  decodeErrCb : Option Nat
  deriving DecidableEq, Repr

/-- What a registered handler does when invoked: return normally, raise a
`KeyError` from its own body, or raise any other `Exception`. -/
inductive HandlerRes where
  | ok
  | raiseKey (k : Nat)
  | raiseOther (e : Nat)
  deriving DecidableEq, Repr

/-- The command registry (`control.Panel.data` snapshotted into the node):
a mapping from command name to handler behaviour. -/
def Registry : Type := List (Nat × HandlerRes)

/-- An inbound message envelope; only the command name matters for the
dispatch protocol. -/
structure Msg where
  command : Nat
  deriving DecidableEq, Repr

/-- The worker context `c` captured at construction (`self.c`) and passed to
the lifecycle methods: the decode-error callback to forward, the command
registry snapshotted into the node, and the fault behaviour of the external
transport (`connection.channel()` raising `TransportError`, `channel.close`
raising, `consumer.cancel` raising). -/
structure Ctx where
  onDecodeError : Nat
  reg : Registry
  openFails : Bool
  closeFails : Bool
  cancelFails : Bool

/-- The mutable state of a `Pidbox` object together with the external pieces
it drives: `self.consumer`, `self.node.channel`, the process-wide logical
clock, and the counting transport's next fresh channel id. -/
structure St where
  consumer : Option Consumer
  nodeChannel : Option Nat
  clock : Nat
  nextChan : Nat
  deriving DecidableEq, Repr

/-- State right after `__init__`: the class attribute `consumer = None`, a
node whose channel is not yet opened, clock and channel counter at zero. -/
def initSt : St := { consumer := none, nodeChannel := none, clock := 0, nextChan := 0 }

/-- Outcome of running one method: the object state when the method returns
or raises, the exception propagated to the caller (if any), and the trace of
observable events that happened before control left the method. -/
structure Outcome where
  st : St
  exc : Option Exc
  tr : List Ev
  deriving DecidableEq, Repr

/-- Embedding of `kombu.common.ignore_errors(conn, fun)`: call the function and swallow
every exception it raises.  The embedding receives the fallible call's
result and discards any error. -/
def ignore_errors (_r : Except Exc Unit) : Unit := ()

/-- Embedding of `c.connection.channel()` on the counting transport: yields the next
fresh channel id, or raises `TransportError` when the connection is down. -/
def connectionChannel (c : Ctx) (s : St) : Except Exc (Nat × St) :=
  if c.openFails then .error .transportError
  else .ok (s.nextChan, { s with nextChan := s.nextChan + 1 })

/-- Embedding of `channel.close()` as a fallible external call (before `ignore_errors`
swallows its error). -/
def channelCloseCall (c : Ctx) : Except Exc Unit :=
  if c.closeFails then .error (.otherExc 0) else .ok ()

/-- Embedding of `consumer.cancel()` as a fallible external call (before `ignore_errors`
swallows its error). -/
def consumerCancelCall (c : Ctx) : Except Exc Unit :=
  if c.cancelFails then .error (.otherExc 0) else .ok ()

/-- Registry lookup: first entry whose name matches the command. -/
def lookupReg (reg : Registry) (name : Nat) : Option HandlerRes :=
  match reg with
  | [] => none
  | (n, h) :: rest => if n = name then some h else lookupReg rest name

/-- Embedding of `self.node.handle_message(body, message)` (external collaborator,
kombu's `Node`), per its contract: look the command name up in the handlers
mapping — a missing name raises `KeyError(name)` — and otherwise invoke the
handler, propagating whatever the handler raises. -/
def handle_message (reg : Registry) (m : Msg) : Except Exc Unit :=
  match lookupReg reg m.command with
  | none => .error (.keyError m.command)
  | some .ok => .ok ()
  | some (.raiseKey k) => .error (.keyError k)
  | some (.raiseOther e) => .error (.otherExc e)

/-- Embedding of `Pidbox.on_stop`: the extension-point hook, `pass` in the source. -/
def on_stop : List Ev := [.onStopHook]

/-- Embedding of `Pidbox._close_channel(c)`: if the node holds a channel, close it under
`ignore_errors`; the channel reference is *not* cleared, and the method
returns `None` (which the caller assigns to `self.consumer`). -/
def close_channel (c : Ctx) (s : St) : St × List Ev :=
  match s.nodeChannel with
  | some ch =>
      let _ := ignore_errors (channelCloseCall c)
      (s, [.chanClose ch])
  | none => (s, [])

/-- Embedding of `Pidbox.stop(c)`: run the on-stop hook, then
`self.consumer = self._close_channel(c)` — the close is attempted (errors
suppressed) and `consumer` becomes `None` (the implicit return value).
Never raises. -/
def stop (c : Ctx) (s : St) : Outcome :=
  let (s1, tr1) := close_channel c s
  { st := { s1 with consumer := none }, exc := none, tr := on_stop ++ tr1 }

/-- Embedding of `Pidbox.start(c)`:
`self.node.channel = c.connection.channel()` — may raise `TransportError`,
which is not caught, leaving the state untouched — then
`self.consumer = self.node.listen(callback=self.on_message)` and
`self.consumer.on_decode_error = c.on_decode_error`. -/
def start (c : Ctx) (s : St) : Outcome :=
  match connectionChannel c s with
  | .error e => { st := s, exc := some e, tr := [] }
  | .ok (ch, s1) =>
      let s2 := { s1 with nodeChannel := some ch }
      let cons : Consumer := { chan := ch, callback := .onMessage, decodeErrCb := none }
      let cons := { cons with decodeErrCb := some c.onDecodeError }
      { st := { s2 with consumer := some cons }, exc := none,
        tr := [.chanOpen ch, .listen ch] }

/-- Embedding of `Pidbox.reset()`: `self.stop(self.c)` then `self.start(self.c)`, both
with the worker context captured at construction. -/
def reset (c : Ctx) (s : St) : Outcome :=
  let o1 := stop c s
  match o1.exc with
  | some e => { st := o1.st, exc := some e, tr := o1.tr }
  | none =>
      let o2 := start c o1.st
      { st := o2.st, exc := o2.exc, tr := o1.tr ++ o2.tr }

/-- Modelled from the spec (§4.5): "equivalent to `stop()` immediately
followed by `start()` using the same worker context" — the sequential
composition of `stop` and `start` on the construction-captured context,
written from the spec's words for comparison with the source's `reset`. -/
def stopThenStart (c : Ctx) (s : St) : Outcome :=
  let o1 := stop c s
  match o1.exc with
  | some e => { st := o1.st, exc := some e, tr := o1.tr }
  | none =>
      let o2 := start c o1.st
      { st := o2.st, exc := o2.exc, tr := o1.tr ++ o2.tr }

/-- Embedding of `Pidbox.on_message(body, message)`: advance the clock first, then
`self.node.handle_message`; `except KeyError` logs the missing command name;
`except Exception` logs the error and calls `self.reset()` — any exception
raised *inside* that handler (such as `TransportError` from the reset's
internal `start`) propagates to the caller. -/
def on_message (c : Ctx) (s : St) (m : Msg) : Outcome :=
  let s0 := { s with clock := s.clock + 1 }
  match handle_message c.reg m with
  | .ok _ => { st := s0, exc := none, tr := [.clockFwd] }
  | .error (.keyError k) =>
      { st := s0, exc := none, tr := [.clockFwd, .logNoSuchCommand k] }
  | .error e =>
      let o := reset c s0
      { st := o.st, exc := o.exc, tr := [.clockFwd, .logCommandError e] ++ o.tr }

/-- Embedding of `Pidbox.shutdown(c)`: run the on-stop hook; if a consumer is active, log
the debug line and cancel it under `ignore_errors`; then `self.stop(self.c)`. -/
def shutdown (c : Ctx) (s : St) : Outcome :=
  let tr1 := on_stop
  let tr2 :=
    match s.consumer with
    | some cons =>
        let _ := ignore_errors (consumerCancelCall c)
        [.debugCancelling, .consumerCancel cons.chan]
    | none => []
  let o := stop c s
  { st := o.st, exc := o.exc, tr := tr1 ++ tr2 ++ o.tr }

/-- The spec's derived state: Listening iff a consumer is held (§3
invariant: Consumer is non-null iff state = Listening). -/
def listening (s : St) : Bool := s.consumer.isSome

/-- Number of channel-open events in a trace (counting transport). -/
def countOpens (tr : List Ev) : Nat :=
  (tr.filter fun e => match e with | .chanOpen _ => true | _ => false).length

/-- Number of channel-close events in a trace (counting transport). -/
def countCloses (tr : List Ev) : Nat :=
  (tr.filter fun e => match e with | .chanClose _ => true | _ => false).length

/-- Number of consumer-cancel events in a trace (counting transport). -/
def countCancels (tr : List Ev) : Nat :=
  (tr.filter fun e => match e with | .consumerCancel _ => true | _ => false).length

/-- Number of clock advances in a trace. -/
def countClockFwd (tr : List Ev) : Nat :=
  (tr.filter fun e => match e with | .clockFwd => true | _ => false).length

/-- One `start` → `stop` pair, as in the spec's leak-counting property. -/
def startStop (c : Ctx) (s : St) : Outcome :=
  let o1 := start c s
  match o1.exc with
  | some e => { st := o1.st, exc := some e, tr := o1.tr }
  | none =>
      let o2 := stop c o1.st
      { st := o2.st, exc := o2.exc, tr := o1.tr ++ o2.tr }

/-- Iterated runs: `n` consecutive `start` → `stop` pairs. -/
def iterPairs (c : Ctx) (s : St) : Nat → Outcome
  | 0 => { st := s, exc := none, tr := [] }
  | n + 1 =>
      let o := iterPairs c s n
      match o.exc with
      | some e => { st := o.st, exc := some e, tr := o.tr }
      | none =>
          let o2 := startStop c o.st
          { st := o2.st, exc := o2.exc, tr := o.tr ++ o2.tr }

/-! Concrete contexts and states used by witnesses and counterexamples. -/

/-- A sample registry: command 0 succeeds, command 1 raises a `KeyError`
from its body, command 2 raises another exception. -/
def regEx : Registry := [(0, .ok), (1, .raiseKey 9), (2, .raiseOther 7)]

/-- A healthy worker context: connection up, close and cancel succeed. -/
def ctxOk : Ctx :=
  { onDecodeError := 5, reg := regEx,
    openFails := false, closeFails := false, cancelFails := false }

/-- A context whose connection raises `TransportError` on channel open. -/
def ctxDown : Ctx := { ctxOk with openFails := true }

/-- A context whose `channel.close` and `consumer.cancel` both raise. -/
def ctxFaulty : Ctx := { ctxOk with closeFails := true, cancelFails := true }

/-- A Listening state: one consumer on channel 0, channel 0 held by the
node, channel counter past 0. -/
def stListen : St :=
  { consumer := some { chan := 0, callback := .onMessage, decodeErrCb := some 5 },
    nodeChannel := some 0, clock := 3, nextChan := 1 }

/-! Helper lemmas about the traces and state effects of the lifecycle
operations, shared by several claim theorems. -/

/-- Lemma: `stop` never raises, clears the consumer, leaves everything else
(including the node's channel reference) unchanged, and its trace is the
hook event followed by the close attempt when a channel is held. -/
theorem stop_spec (c : Ctx) (s : St) :
    (stop c s).exc = none ∧ (stop c s).st = { s with consumer := none } ∧
    (stop c s).tr = .onStopHook ::
      (match s.nodeChannel with | some ch => [Ev.chanClose ch] | none => []) := by
  cases h : s.nodeChannel <;> simp [stop, close_channel, on_stop, h]

/-- Lemma: `start` on a healthy connection opens the next fresh channel, stores it
in the node, creates the consumer, and never raises. -/
theorem start_ok_spec (c : Ctx) (s : St) (hopen : c.openFails = false) :
    (start c s).exc = none ∧
    (start c s).st = { s with
      nodeChannel := some s.nextChan,
      consumer := some { chan := s.nextChan, callback := .onMessage,
                         decodeErrCb := some c.onDecodeError },
      nextChan := s.nextChan + 1 } ∧
    (start c s).tr = [.chanOpen s.nextChan, .listen s.nextChan] := by
  simp [start, connectionChannel, hopen]

/-- Lemma: `reset` on a healthy connection is stop-trace then start-trace,
resulting in a fresh channel and consumer; the clock is untouched. -/
theorem reset_ok_spec (c : Ctx) (s : St) (hopen : c.openFails = false) :
    (reset c s).exc = none ∧
    (reset c s).st = { s with
      nodeChannel := some s.nextChan,
      consumer := some { chan := s.nextChan, callback := .onMessage,
                         decodeErrCb := some c.onDecodeError },
      nextChan := s.nextChan + 1 } ∧
    (reset c s).tr = .onStopHook ::
      ((match s.nodeChannel with | some ch => [Ev.chanClose ch] | none => []) ++
        [.chanOpen s.nextChan, .listen s.nextChan]) := by
  cases h : s.nodeChannel <;>
    simp [reset, stop, close_channel, on_stop, start, connectionChannel, hopen, h]

/-- Lemma: `reset` never advances the logical clock: its resulting clock equals the
incoming clock, and its trace holds no clock event. -/
theorem reset_clock_free (c : Ctx) (s : St) :
    (reset c s).st.clock = s.clock ∧ countClockFwd (reset c s).tr = 0 := by
  cases h : s.nodeChannel <;> cases h2 : c.openFails <;>
    simp [reset, stop, close_channel, on_stop, start, connectionChannel,
          countClockFwd, h, h2]

/-- Lemma: `startStop` on a healthy connection never raises and its trace holds
exactly one channel-open and one channel-close event. -/
theorem startStop_counts (c : Ctx) (s : St) (hopen : c.openFails = false) :
    (startStop c s).exc = none ∧
    countOpens (startStop c s).tr = 1 ∧ countCloses (startStop c s).tr = 1 := by
  simp [startStop, start, connectionChannel, hopen, stop, close_channel, on_stop,
        countOpens, countCloses]

/-- Lemma: `n` start→stop pairs on a healthy connection never raise and produce
exactly `n` channel-open and `n` channel-close events. -/
theorem iterPairs_counts (c : Ctx) (s : St) (hopen : c.openFails = false) (n : Nat) :
    (iterPairs c s n).exc = none ∧
    countOpens (iterPairs c s n).tr = n ∧ countCloses (iterPairs c s n).tr = n := by
  induction n with
  | zero => simp [iterPairs, countOpens, countCloses]
  | succ k ih =>
      obtain ⟨he, ho, hcl⟩ := ih
      obtain ⟨pe, po, pc⟩ := startStop_counts c (iterPairs c s k).st hopen
      simp only [iterPairs, he]
      refine ⟨pe, ?_, ?_⟩ <;>
        simp only [countOpens, countCloses, List.filter_append,
                   List.length_append] at ho hcl po pc ⊢ <;>
        omega

/-! The claim theorems. -/

/-- C1: for every inbound message whose looked-up handler raises any error
other than a missing-command lookup, dispatch logs the error and triggers
`reset` exactly once — the trace after the log is exactly one stop (hook
plus one channel close) followed by exactly one start (one channel open and
one listen) — and the Channel held after the reset is distinct from the
Channel held before.  Hypotheses: the handler for the command raises a
non-`KeyError`, the connection can open a channel, and the held channel id
predates the counting transport's next fresh id. -/
theorem on_message_handler_error_resets (c : Ctx) (s : St) (m : Msg) (e ch : Nat)
    (hreg : lookupReg c.reg m.command = some (.raiseOther e))
    (hopen : c.openFails = false)
    (hch : s.nodeChannel = some ch)
    (hfresh : ch < s.nextChan) :
    (on_message c s m).exc = none ∧
    (on_message c s m).tr = [.clockFwd, .logCommandError (.otherExc e),
      .onStopHook, .chanClose ch, .chanOpen s.nextChan, .listen s.nextChan] ∧
    (on_message c s m).st.nodeChannel = some s.nextChan ∧
    s.nodeChannel ≠ (on_message c s m).st.nodeChannel := by
  refine ⟨?_, ?_, ?_, ?_⟩ <;>
    simp [on_message, handle_message, hreg, reset, stop, close_channel, on_stop,
          start, connectionChannel, hopen, hch]
  omega

/-- C1 witness: command 2 of the sample registry raises; dispatching it on
the Listening state performs close-then-open and swaps channel 0 for 1. -/
theorem on_message_handler_error_resets_witness :
    (on_message ctxOk stListen ⟨2⟩).exc = none ∧
    (on_message ctxOk stListen ⟨2⟩).tr = [.clockFwd, .logCommandError (.otherExc 7),
      .onStopHook, .chanClose 0, .chanOpen 1, .listen 1] ∧
    (on_message ctxOk stListen ⟨2⟩).st.nodeChannel = some 1 ∧
    stListen.nodeChannel ≠ (on_message ctxOk stListen ⟨2⟩).st.nodeChannel :=
  on_message_handler_error_resets ctxOk stListen ⟨2⟩ 7 0
    (by decide) rfl (by decide) (by decide)

/-- C2: for every inbound message whose command name is not in the registry,
dispatch logs the missing name at error level and returns: no exception, the
Consumer and the Channel are unchanged, and the trace holds no channel-close
and no channel-open event (no reset). -/
theorem on_message_unknown_command (c : Ctx) (s : St) (m : Msg)
    (hreg : lookupReg c.reg m.command = none) :
    (on_message c s m).exc = none ∧
    (on_message c s m).st.consumer = s.consumer ∧
    (on_message c s m).st.nodeChannel = s.nodeChannel ∧
    (on_message c s m).tr = [.clockFwd, .logNoSuchCommand m.command] ∧
    countCloses (on_message c s m).tr = 0 ∧
    countOpens (on_message c s m).tr = 0 := by
  simp [on_message, handle_message, hreg, countCloses, countOpens]

/-- C2 witness: command 3 is absent from the sample registry. -/
theorem on_message_unknown_command_witness :
    (on_message ctxOk stListen ⟨3⟩).exc = none ∧
    (on_message ctxOk stListen ⟨3⟩).st.consumer = stListen.consumer ∧
    (on_message ctxOk stListen ⟨3⟩).st.nodeChannel = stListen.nodeChannel ∧
    (on_message ctxOk stListen ⟨3⟩).tr = [.clockFwd, .logNoSuchCommand 3] ∧
    countCloses (on_message ctxOk stListen ⟨3⟩).tr = 0 ∧
    countOpens (on_message ctxOk stListen ⟨3⟩).tr = 0 :=
  on_message_unknown_command ctxOk stListen ⟨3⟩ (by decide)

/-- C3: every dispatched message advances the logical clock exactly once,
and the advance is the first event of the dispatch trace — before the
handler lookup and invocation — whether the command is known, unknown, or
its handler errors. -/
theorem on_message_clock_once (c : Ctx) (s : St) (m : Msg) :
    (on_message c s m).st.clock = s.clock + 1 ∧
    (on_message c s m).tr.head? = some Ev.clockFwd ∧
    countClockFwd (on_message c s m).tr = 1 := by
  rcases hm : handle_message c.reg m with e | u
  · cases e with
    | keyError k => simp [on_message, hm, countClockFwd]
    | otherExc e2 =>
        obtain ⟨hc, hn⟩ := reset_clock_free c { s with clock := s.clock + 1 }
        simp only [countClockFwd, List.filter_append, List.length_append] at hn ⊢
        simp [on_message, hm, hc, hn]
    | transportError =>
        obtain ⟨hc, hn⟩ := reset_clock_free c { s with clock := s.clock + 1 }
        simp only [countClockFwd, List.filter_append, List.length_append] at hn ⊢
        simp [on_message, hm, hc, hn]
  · simp [on_message, hm, countClockFwd]

/-- C4 counterexample: with the connection down, dispatching a message whose
handler raises makes the reset's internal `start` raise `TransportError`
inside the `except Exception` block, and that fault propagates out of
dispatch to the transport's delivery loop — refuting the claim that no fault
arising while handling an inbound message ever propagates out of dispatch. -/
theorem on_message_propagates_transport_error :
    (on_message ctxDown stListen ⟨2⟩).exc = some .transportError := by decide

/-- C4 (amended): dispatch contains every fault of the handler itself —
unknown commands and handler exceptions never escape — provided the
self-heal reset can open a channel; when the reset's internal `start` fails
to establish a connection, that `TransportError` does propagate out of
dispatch to the delivery loop. -/
theorem on_message_contained_when_connection_ok (c : Ctx) (s : St) (m : Msg)
    (hopen : c.openFails = false) :
    (on_message c s m).exc = none := by
  rcases hm : handle_message c.reg m with e | u
  · cases e with
    | keyError k => simp [on_message, hm]
    | otherExc e2 =>
        simp [on_message, hm, (reset_ok_spec c { s with clock := s.clock + 1 } hopen).1]
    | transportError =>
        simp [on_message, hm, (reset_ok_spec c { s with clock := s.clock + 1 } hopen).1]
  · simp [on_message, hm]

/-- C4 witness: on a healthy context even an erroring handler is contained. -/
theorem on_message_contained_witness :
    (on_message ctxOk stListen ⟨2⟩).exc = none :=
  on_message_contained_when_connection_ok ctxOk stListen ⟨2⟩ rfl

/-- C5 counterexample: after `start` the node holds channel 0; `stop` clears
the Consumer but the Channel reference is *not* set to null — the node still
holds channel 0 — refuting the claim that stop leaves the Channel null. -/
theorem stop_retains_channel_reference :
    (start ctxOk initSt).st.nodeChannel = some 0 ∧
    (stop ctxOk (start ctxOk initSt).st).st.consumer = none ∧
    (stop ctxOk (start ctxOk initSt).st).st.nodeChannel = some 0 := by decide

/-- C5 (amended): for every starting state, stop invokes the on-stop hook,
attempts to close the held Channel with any close error suppressed (the
outcome never carries an exception, over every context including one whose
close raises), and sets the Consumer to null with state = Stopped — but the
Channel reference is retained, still pointing at the closed channel, rather
than being set to null; calling stop when already Stopped raises no error
and leaves the state unchanged (re-attempting the close of the retained
channel). -/
theorem stop_effect (c : Ctx) (s : St) :
    (stop c s).exc = none ∧
    (stop c s).st.consumer = none ∧
    listening (stop c s).st = false ∧
    (stop c s).st.nodeChannel = s.nodeChannel ∧
    (stop c s).tr = .onStopHook ::
      (match s.nodeChannel with | some ch => [Ev.chanClose ch] | none => []) ∧
    (stop c (stop c s).st).st = (stop c s).st ∧
    (stop c (stop c s).st).exc = none := by
  cases h : s.nodeChannel <;> simp [stop, close_channel, on_stop, listening, h]

/-- C6: for every context (including one whose `consumer.cancel` and
`channel.close` both raise) and every starting state, shutdown cancels the
Consumer exactly once when one is active (zero times otherwise), ends with
the Consumer cleared and state = Stopped, and no exception escapes. -/
theorem shutdown_safe (c : Ctx) (s : St) :
    (shutdown c s).exc = none ∧
    (shutdown c s).st = { s with consumer := none } ∧
    listening (shutdown c s).st = false ∧
    countCancels (shutdown c s).tr = (if s.consumer.isSome then 1 else 0) := by
  cases hc : s.consumer <;> cases h : s.nodeChannel <;>
    simp [shutdown, stop, close_channel, on_stop, listening, countCancels, hc, h]

/-- C7 counterexample: `start` from the initial state enters Listening, and
the following `stop` — a transition out of Listening — cancels zero
Consumers (its trace has no cancel event), refuting the claim that each
transition out of Listening cancels exactly one Consumer. -/
theorem stop_cancels_no_consumer :
    listening (start ctxOk initSt).st = true ∧
    listening (stop ctxOk (start ctxOk initSt).st).st = false ∧
    countCancels (stop ctxOk (start ctxOk initSt).st).tr = 0 := by decide

/-- C7 (amended): each transition into Listening opens exactly one Channel
and creates exactly one Consumer; each transition out of Listening closes
exactly one Channel, but `stop` cancels no Consumer — it merely drops the
reference — while `shutdown` explicitly cancels exactly one; and for every
sequence of start→stop pairs the number of opened Channels equals the
number of closed Channels. -/
theorem channel_accounting (c : Ctx) (s : St) (n ch : Nat)
    (hopen : c.openFails = false)
    (hch : s.nodeChannel = some ch)
    (hlisten : listening s = true) :
    (countOpens (start c s).tr = 1 ∧ (start c s).st.consumer.isSome = true) ∧
    (countCloses (stop c s).tr = 1 ∧ countCancels (stop c s).tr = 0 ∧
      listening (stop c s).st = false) ∧
    (countCloses (shutdown c s).tr = 1 ∧ countCancels (shutdown c s).tr = 1) ∧
    countOpens (iterPairs c initSt n).tr = countCloses (iterPairs c initSt n).tr := by
  obtain ⟨cons, hcons⟩ := Option.isSome_iff_exists.mp hlisten
  obtain ⟨-, ho, hcl⟩ := iterPairs_counts c initSt hopen n
  refine ⟨?_, ?_, ?_, ?_⟩
  · simp [start, connectionChannel, hopen, countOpens]
  · simp [stop, close_channel, on_stop, hch, countCloses, countCancels, listening]
  · simp [shutdown, stop, close_channel, on_stop, hch, hcons,
          countCloses, countCancels]
  · rw [ho, hcl]

/-- C7 witness: the accounting holds on the Listening state over three
start→stop pairs. -/
theorem channel_accounting_witness :
    ((countOpens (start ctxOk stListen).tr = 1 ∧
      (start ctxOk stListen).st.consumer.isSome = true) ∧
    (countCloses (stop ctxOk stListen).tr = 1 ∧
      countCancels (stop ctxOk stListen).tr = 0 ∧
      listening (stop ctxOk stListen).st = false) ∧
    (countCloses (shutdown ctxOk stListen).tr = 1 ∧
      countCancels (shutdown ctxOk stListen).tr = 1) ∧
    countOpens (iterPairs ctxOk initSt 3).tr =
      countCloses (iterPairs ctxOk initSt 3).tr) :=
  channel_accounting ctxOk stListen 3 0 rfl rfl rfl

/-- C8: `reset` produces exactly the same resulting state, exception and
sequence of transport effects as `stop` immediately followed by `start`
with the construction-captured worker context (the spec-modelled
`stopThenStart`), for every context and state. -/
theorem reset_refines_stop_then_start (c : Ctx) (s : St) :
    reset c s = stopThenStart c s := rfl

/-- C9: on a healthy connection, `start` opens the next fresh channel from
the connection, stores it in the node, and creates a Consumer carrying the
dispatch callback and the forwarded decode-error callback, ending Listening;
when opening the channel raises `TransportError`, the error is not caught —
it propagates in the outcome — the state is completely unchanged and no
Consumer is created. -/
theorem start_opens_channel_and_listens (c : Ctx) (s : St) :
    (c.openFails = false →
      (start c s).exc = none ∧
      (start c s).st.nodeChannel = some s.nextChan ∧
      (start c s).st.consumer = some { chan := s.nextChan, callback := .onMessage,
                                       decodeErrCb := some c.onDecodeError } ∧
      listening (start c s).st = true ∧
      (start c s).tr = [.chanOpen s.nextChan, .listen s.nextChan]) ∧
    (c.openFails = true →
      (start c s).exc = some .transportError ∧
      (start c s).st = s ∧ (start c s).tr = []) := by
  constructor <;> intro hopen <;> simp [start, connectionChannel, hopen, listening]

/-- C9 witness: the healthy branch on `ctxOk`, the failing branch on
`ctxDown`, both from the initial state. -/
theorem start_opens_channel_and_listens_witness :
    ((start ctxOk initSt).exc = none ∧
      (start ctxOk initSt).st.nodeChannel = some initSt.nextChan ∧
      (start ctxOk initSt).st.consumer = some
        { chan := initSt.nextChan, callback := .onMessage,
          decodeErrCb := some ctxOk.onDecodeError } ∧
      listening (start ctxOk initSt).st = true ∧
      (start ctxOk initSt).tr = [.chanOpen initSt.nextChan, .listen initSt.nextChan]) ∧
    ((start ctxDown initSt).exc = some .transportError ∧
      (start ctxDown initSt).st = initSt ∧ (start ctxDown initSt).tr = []) :=
  ⟨(start_opens_channel_and_listens ctxOk initSt).1 rfl,
   (start_opens_channel_and_listens ctxDown initSt).2 rfl⟩

/-- C10: for every inbound message whose command is present in the registry
but whose handler raises a `KeyError` from its own body, dispatch takes the
unknown-command path: it logs the no-such-control-command line (with the
raised key), raises nothing, triggers no reset, and leaves the Channel and
the Consumer unchanged. -/
theorem on_message_handler_keyerror_no_reset (c : Ctx) (s : St) (m : Msg) (k : Nat)
    (hreg : lookupReg c.reg m.command = some (.raiseKey k)) :
    (on_message c s m).exc = none ∧
    (on_message c s m).tr = [.clockFwd, .logNoSuchCommand k] ∧
    (on_message c s m).st.consumer = s.consumer ∧
    (on_message c s m).st.nodeChannel = s.nodeChannel ∧
    countCloses (on_message c s m).tr = 0 ∧
    countOpens (on_message c s m).tr = 0 := by
  simp [on_message, handle_message, hreg, countCloses, countOpens]

/-- C10 witness: command 1 of the sample registry raises `KeyError 9` from
its handler body. -/
theorem on_message_handler_keyerror_no_reset_witness :
    (on_message ctxOk stListen ⟨1⟩).exc = none ∧
    (on_message ctxOk stListen ⟨1⟩).tr = [.clockFwd, .logNoSuchCommand 9] ∧
    (on_message ctxOk stListen ⟨1⟩).st.consumer = stListen.consumer ∧
    (on_message ctxOk stListen ⟨1⟩).st.nodeChannel = stListen.nodeChannel ∧
    countCloses (on_message ctxOk stListen ⟨1⟩).tr = 0 ∧
    countOpens (on_message ctxOk stListen ⟨1⟩).tr = 0 :=
  on_message_handler_keyerror_no_reset ctxOk stListen ⟨1⟩ 9 (by decide)

end Pidbox
